import Mathlib

/-!
Shallow embedding of the SMTP session engine of go-mproxy (`smtp/smtp.go`).

Pure Go string helpers (`strings.TrimSpace`, `strings.SplitN`) are embedded
as Lean functions over `String`/`List Char`.  The regexes
`mailCommandPattern` / `recipientCommandPattern` are embedded as
deterministic matchers (the patterns are anchored and unambiguous).
The network connection (`net.Conn`) and the textproto reader/writer are
modelled by an explicit record: writes append response lines, reads pop
from a list of pending input lines, and — per the net.Conn contract —
every read or write on a closed connection fails.  `Close` may be invoked
several times; `closeCount` counts the invocations (a second invocation is
a failing no-op on an already-closed connection).
-/

namespace MProxy

/-- Character class of Go `unicode.IsSpace` for the code points that can occur
in a text line (embeds the whitespace set used by `strings.TrimSpace`). -/
def goIsSpace (c : Char) : Bool :=
  c = ' ' || c = '\t' || c = '\n' || c = '\x0b' || c = '\x0c' || c = '\r' ||
  c = '\u0085' || c = '\u00A0'

/-- Embedding of Go `strings.TrimSpace`. -/
def trimSpace (s : String) : String :=
  (((s.data.dropWhile goIsSpace).reverse.dropWhile goIsSpace).reverse).asString

/-- Embedding of Go `strings.SplitN(s, " ", 2)`: split at the first space,
keeping the remainder whole; always returns one or two pieces. -/
def splitN2 (s : String) : List String :=
  let pre := s.data.takeWhile (fun c => c != ' ')
  match s.data.dropWhile (fun c => c != ' ') with
  | [] => [pre.asString]
  | _ :: rest => [pre.asString, rest.asString]

/-- The protocol line terminator. -/
def crlf : String := "\r\n"

/-- Embedding of `SMTPState` (smtp.go lines 12-20).  Go `[]byte` content is
modelled as a `String` (it is only ever appended to line by line). -/
structure SMTPState where
  Hello : String
  ServerName : String
  ClientName : String
  ReturnTo : String
  Recipients : List String
  Headers : List String
  Content : String
deriving DecidableEq, Repr

/-- The zero value `SMTPState{}` built by `NewSMTPConnection`. -/
def SMTPState.init : SMTPState :=
  { Hello := "", ServerName := "", ClientName := "", ReturnTo := "",
    Recipients := [], Headers := [], Content := "" }

/-- Embedding of `SMTPState.HasStarted`: `len(st.Hello) > 0`. -/
def SMTPState.HasStarted (st : SMTPState) : Bool :=
  st.Hello != ""

/-- Embedding of `SMTPState.Reset` (smtp.go lines 26-31). -/
def SMTPState.Reset (st : SMTPState) : SMTPState :=
  { st with ReturnTo := "", Recipients := [], Headers := [], Content := "" }

/-- Embedding of `SMTPState.String` (smtp.go lines 33-46); named `render`
because `String` is taken by the builtin type. -/
def SMTPState.render (st : SMTPState) : String :=
  let s := "MAIL FROM: <" ++ st.ReturnTo ++ ">" ++ crlf
  let s := st.Recipients.foldl (fun a x => a ++ "RCPT TO: <" ++ x ++ ">" ++ crlf) s
  let s := s ++ "DATA" ++ crlf
  let s := st.Headers.foldl (fun a x => a ++ x ++ crlf) s
  let s := s ++ crlf
  s ++ st.Content

/-- Model of the underlying `net.Conn` together with the textproto
reader/writer: `output` is the transcript of lines successfully written,
`closed` the connection state, `closeCount` the number of `Close` calls. -/
structure Conn where
  closed : Bool
  closeCount : Nat
  output : List String
deriving DecidableEq, Repr

def Conn.init : Conn := { closed := false, closeCount := 0, output := [] }

/-- Modelled from the net.Conn contract: a read on a closed connection
fails; otherwise `textproto.Reader.ReadLine` pops the next pending line
and fails at end of input. -/
def Conn.readLine (c : Conn) (input : List String) : Option (String × List String) :=
  if c.closed then none
  else
    match input with
    | [] => none
    | l :: rest => some (l, rest)

/-- Modelled from the net.Conn contract: `textproto.Writer.PrintfLine`
appends one line to the wire, and fails once the connection is closed. -/
def Conn.writeLine (c : Conn) (s : String) : Conn × Bool :=
  if c.closed then (c, false)
  else ({ c with output := c.output ++ [s] }, true)

/-- Embedding of `net.Conn.Close`: marks the connection closed and records
the invocation; the call fails (returns an error) when the connection was
already closed. -/
def Conn.close (c : Conn) : Conn × Bool :=
  ({ c with closed := true, closeCount := c.closeCount + 1 }, !c.closed)

/-- Embedding of `SMTPHandler` (smtp.go lines 216-219). -/
structure Handler where
  conn : Conn
  closing : Bool
deriving DecidableEq, Repr

def Handler.init : Handler := { conn := Conn.init, closing := false }

/-- Embedding of `SMTPHandler.Close` (smtp.go lines 272-275). -/
def Handler.Close (h : Handler) : Handler × Bool :=
  match h.conn.close with
  | (c, ok) => ({ conn := c, closing := true }, ok)

/-- Embedding of `SMTPConnection` (smtp.go lines 48-53): the handler it
writes through plus the session state. -/
structure SMTPConnection where
  handler : Handler
  smtpState : SMTPState
deriving DecidableEq, Repr

/-- Embedding of `SMTPConnection.Send` (smtp.go lines 76-83): write each
line in order, stopping at the first failure. -/
def Conn.sendAll : Conn → List String → Conn × Bool
  | c, [] => (c, true)
  | c, m :: ms =>
    match c.writeLine m with
    | (c1, true) => c1.sendAll ms
    | (c1, false) => (c1, false)

def SMTPConnection.Send (sc : SMTPConnection) (msg : List String) : SMTPConnection × Bool :=
  match sc.handler.conn.sendAll msg with
  | (c, ok) => ({ sc with handler := { sc.handler with conn := c } }, ok)

/-- Embedding of `SMTPConnection.Quit` (smtp.go lines 85-87). -/
def SMTPConnection.Quit (sc : SMTPConnection) : SMTPConnection × Bool :=
  match sc.handler.Close with
  | (h, ok) => ({ sc with handler := h }, ok)

/-- Consume an expected literal sequence of characters, returning the
remainder of the input when it is present. -/
def dropPfx : List Char → List Char → Option (List Char)
  | [], cs => some cs
  | _ :: _, [] => none
  | p :: ps, c :: cs => if c = p then dropPfx ps cs else none

/-- Matcher for the tail common to both command regexes, i.e. for
the part written ` *<([^>]+)> *$`: optional spaces, an angle-bracketed
non-empty address not containing a closing bracket, optional spaces, end
of line.  Returns the captured address. -/
def matchAngle (cs : List Char) : Option String :=
  match cs.dropWhile (fun c => c == ' ') with
  | '<' :: r =>
    let addr := r.takeWhile (fun c => c != '>')
    match r.dropWhile (fun c => c != '>') with
    | '>' :: tail =>
      if addr.isEmpty then none
      else if tail.all (fun c => c == ' ') then some addr.asString
      else none
    | _ => none
  | _ => none

/-- Embedding of `mailCommandPattern` (smtp.go line 114), the anchored
regex `MAIL FROM: *<([^>]+)> *$` applied with `FindStringSubmatch`:
returns the capture group on a match. -/
def mailCommandPattern (line : String) : Option String :=
  match dropPfx "MAIL FROM:".data line.data with
  | some rest => matchAngle rest
  | none => none

/-- Embedding of `recipientCommandPattern` (smtp.go line 131), the
anchored regex `RCPT TO: *<([^>]+)> *$`. -/
def recipientCommandPattern (line : String) : Option String :=
  match dropPfx "RCPT TO:".data line.data with
  | some rest => matchAngle rest
  | none => none

/-- Embedding of `HelloCommand.Execute` (smtp.go lines 96-112).  The
returned Bool is the absence of an error (`true` = returned nil). -/
def helloExecute (sc : SMTPConnection) (s : String) : SMTPConnection × Bool :=
  if sc.smtpState.HasStarted then sc.Send ["550 Session has started"]
  else
    match splitN2 (trimSpace s) with
    | v :: c :: _ =>
      let st1 := { sc.smtpState with Hello := v, ClientName := c }
      SMTPConnection.Send { sc with smtpState := st1 }
        ["250-" ++ st1.ServerName, "250-AUTH PLAIN", "250 HELP"]
    | _ => sc.Send ["550 Invalid syntax (EHLO|HELO) domain"]

/-- Embedding of `MailCommand.Execute` (smtp.go lines 119-129). -/
def mailExecute (sc : SMTPConnection) (line : String) : SMTPConnection × Bool :=
  if !sc.smtpState.HasStarted then sc.Send ["550 Session has not started yet."]
  else
    match mailCommandPattern line with
    | none => sc.Send ["550 Invalid syntax MAIL FROM: <foo@example.net>"]
    | some a =>
      SMTPConnection.Send
        { sc with smtpState := { sc.smtpState with ReturnTo := a } } ["250 OK"]

/-- Embedding of `RecipientCommand.Execute` (smtp.go lines 136-150). -/
def recipientExecute (sc : SMTPConnection) (line : String) : SMTPConnection × Bool :=
  if !sc.smtpState.HasStarted then sc.Send ["550 Session has not started yet."]
  else
    match recipientCommandPattern line with
    | none => sc.Send ["550 Invalid syntax RCPT TO: <foo@example.net>"]
    | some a =>
      SMTPConnection.Send
        { sc with smtpState :=
            { sc.smtpState with Recipients := sc.smtpState.Recipients ++ [a] } }
        ["250 OK"]

/-- Embedding of `ResetCommand.Execute` (smtp.go lines 155-158). -/
def resetExecute (sc : SMTPConnection) (_line : String) : SMTPConnection × Bool :=
  SMTPConnection.Send { sc with smtpState := sc.smtpState.Reset } ["250 OK"]

/-- Embedding of `VerifyCommand.Execute` (smtp.go lines 163-165). -/
def verifyExecute (sc : SMTPConnection) (_line : String) : SMTPConnection × Bool :=
  sc.Send ["550 VRFY not supported"]

/-- Embedding of `NoopCommand.Execute` (smtp.go lines 170-172). -/
def noopExecute (sc : SMTPConnection) (_line : String) : SMTPConnection × Bool :=
  sc.Send ["250 OK"]

/-- Embedding of `QuitCommand.Execute` (smtp.go lines 177-182): close the
handler first, then attempt the closing message. -/
def quitExecute (sc : SMTPConnection) (_line : String) : SMTPConnection × Bool :=
  match sc.Quit with
  | (sc1, false) => (sc1, false)
  | (sc1, true) => sc1.Send ["221 Bye"]

/-- Dot-unstuffing performed by `textproto.Reader.ReadDotLines`: a leading
dot on a non-terminator line is removed. -/
def dotUnstuff (l : String) : String :=
  match l.data with
  | '.' :: rest => rest.asString
  | _ => l

/-- Modelled from the textproto contract for `ReadDotLines`: read lines up
to a lone-dot terminator (consumed, excluded, remaining input returned);
`none` when the input ends before the terminator (an I/O error). -/
def readDotLines : List String → Option (List String × List String)
  | [] => none
  | l :: rest =>
    if l = "." then some ([], rest)
    else
      match readDotLines rest with
      | some (ds, rem) => some (dotUnstuff l :: ds, rem)
      | none => none

/-- The header/body scanning loop of `DataCommand.Execute` (smtp.go lines
196-209), with its `headers`/`content`/`inBody` accumulators. -/
def dataBodySplit : List String → List String → String → Bool → List String × String
  | [], headers, content, _ => (headers, content)
  | x :: xs, headers, content, inBody =>
    if !inBody && trimSpace x == "" then dataBodySplit xs headers content true
    else if inBody then dataBodySplit xs headers (content ++ x ++ crlf) inBody
    else dataBodySplit xs (headers ++ [x]) content inBody

/-- The split applied to a whole dot-terminated block, starting in header
mode with empty accumulators. -/
def parseData (lines : List String) : List String × String :=
  dataBodySplit lines [] "" false

/-- Embedding of `DataCommand.Execute` (smtp.go lines 187-214): prompt with
"250 OK", read the dot-terminated block, store the split result.  Also
returns the input remaining after the block. -/
def dataExecute (sc : SMTPConnection) (_line : String) (input : List String) :
    SMTPConnection × List String × Bool :=
  match sc.Send ["250 OK"] with
  | (sc1, false) => (sc1, input, false)
  | (sc1, true) =>
    match readDotLines input with
    | none => (sc1, [], false)
    | some (ls, rest) =>
      let hc := parseData ls
      ({ sc1 with smtpState :=
          { sc1.smtpState with Headers := hc.1, Content := hc.2 } }, rest, true)

/-- The fixed verb set of `smtpCommandMap` (smtp.go lines 221-231). -/
inductive Verb where
  | hello | mail | rcpt | rset | vrfy | noop | quit | data
deriving DecidableEq, Repr

/-- Embedding of the dispatch table `smtpCommandMap`. -/
def smtpCommandMap (v : String) : Option Verb :=
  if v = "HELO" then some .hello
  else if v = "EHLO" then some .hello
  else if v = "MAIL" then some .mail
  else if v = "RCPT" then some .rcpt
  else if v = "RSET" then some .rset
  else if v = "VRFY" then some .vrfy
  else if v = "NOOP" then some .noop
  else if v = "QUIT" then some .quit
  else if v = "DATA" then some .data
  else none

/-- Dispatch one found verb to its handler (`cmnd.Execute(smtpConn, line)`
in `SMTPHandler.Run`); only DATA consumes further input. -/
def execCommand (v : Verb) (sc : SMTPConnection) (line : String) (input : List String) :
    SMTPConnection × List String × Bool :=
  match v with
  | .hello => match helloExecute sc line with | (sc1, ok) => (sc1, input, ok)
  | .mail => match mailExecute sc line with | (sc1, ok) => (sc1, input, ok)
  | .rcpt => match recipientExecute sc line with | (sc1, ok) => (sc1, input, ok)
  | .rset => match resetExecute sc line with | (sc1, ok) => (sc1, input, ok)
  | .vrfy => match verifyExecute sc line with | (sc1, ok) => (sc1, input, ok)
  | .noop => match noopExecute sc line with | (sc1, ok) => (sc1, input, ok)
  | .quit => match quitExecute sc line with | (sc1, ok) => (sc1, input, ok)
  | .data => dataExecute sc line input

/-- One iteration of the body of `SMTPHandler.Run` (smtp.go lines 253-267),
after a line has been read: token split, the (unreachable) empty-token
check, dispatch-table lookup, execution or the unrecognized response. -/
def loopBody (sc : SMTPConnection) (line : String) (input : List String) :
    SMTPConnection × List String × Bool :=
  let xs := splitN2 (trimSpace line)
  match (if xs.length = 0 then sc.Send ["550 Command must not be empty"] else (sc, true)) with
  | (scA, false) => (scA, input, false)
  | (scA, true) =>
    match smtpCommandMap (xs.headD "") with
    | some v => execCommand v scA line input
    | none =>
      match scA.Send ["550 Command not recognized"] with
      | (scB, ok) => (scB, input, ok)

/-- The read/dispatch loop of `SMTPHandler.Run` (smtp.go lines 248-268).
The fuel argument only bounds iterations; each iteration consumes at least
one input line, so `input.length + 1` fuel never runs out. -/
def runAux : Nat → SMTPConnection → List String → SMTPConnection × List String
  | 0, sc, input => (sc, input)
  | fuel + 1, sc, input =>
    if sc.handler.closing then (sc, input)
    else
      match sc.handler.conn.readLine input with
      | none => (sc, input)
      | some (line, rest) =>
        match loopBody sc line rest with
        | (sc1, rest1, true) => runAux fuel sc1 rest1
        | (sc1, rest1, false) => (sc1, rest1)

/-- Embedding of `SMTPHandler.Run` (smtp.go lines 244-270): fresh session
state, service-ready greeting (whose send error Go discards), the loop,
and the deferred `h.Close()` on every exit path. -/
def Handler.Run (h : Handler) (input : List String) : SMTPConnection × List String :=
  let sc0 : SMTPConnection := { handler := h, smtpState := SMTPState.init }
  let sc1 := (sc0.Send ["220 Simple Mail Transfer service ready"]).1
  match runAux (input.length + 1) sc1 input with
  | (sc2, rem) =>
    match sc2.handler.Close with
    | (h3, _) => ({ sc2 with handler := h3 }, rem)

/-- The session states reachable from the fresh state by any sequence of
loop iterations (any input lines, any connection contents). -/
inductive ReachableState : SMTPState → Prop where
  | init : ReachableState SMTPState.init
  | step (sc : SMTPConnection) (line : String) (input : List String) :
      ReachableState sc.smtpState →
      ReachableState (loopBody sc line input).1.smtpState

/-! ### Basic lemmas about the connection layer -/

theorem Send_smtpState (sc : SMTPConnection) (msg : List String) :
    (sc.Send msg).1.smtpState = sc.smtpState := by
  unfold SMTPConnection.Send
  rcases h : sc.handler.conn.sendAll msg with ⟨c, ok⟩
  simp [h]

theorem sendAll_open (msg : List String) (c : Conn) (hc : c.closed = false) :
    c.sendAll msg = ({ c with output := c.output ++ msg }, true) := by
  induction msg generalizing c with
  | nil => simp [Conn.sendAll]
  | cons m ms ih =>
    have h1 : c.writeLine m = ({ c with output := c.output ++ [m] }, true) := by
      simp [Conn.writeLine, hc]
    simp only [Conn.sendAll, h1]
    rw [ih { c with output := c.output ++ [m] } hc]
    simp

theorem sendAll_closed (m : String) (ms : List String) (c : Conn) (hc : c.closed = true) :
    c.sendAll (m :: ms) = (c, false) := by
  simp [Conn.sendAll, Conn.writeLine, hc]

theorem Send_open (sc : SMTPConnection) (msg : List String)
    (hc : sc.handler.conn.closed = false) :
    sc.Send msg =
      ({ sc with handler := { sc.handler with conn :=
          { sc.handler.conn with output := sc.handler.conn.output ++ msg } } }, true) := by
  unfold SMTPConnection.Send
  rw [sendAll_open msg _ hc]

theorem splitN2_ne_nil (s : String) : splitN2 s ≠ [] := by
  unfold splitN2
  rcases h : s.data.dropWhile (fun c => c != ' ') with _ | ⟨c, rest⟩ <;> simp [h]

/-! ### State-shape lemmas: how each handler can change the session state -/

theorem hasStarted_false_iff (st : SMTPState) : st.HasStarted = false ↔ st.Hello = "" := by
  simp [SMTPState.HasStarted]

theorem helloExecute_shape (sc : SMTPConnection) (s : String) :
    (helloExecute sc s).1.smtpState = sc.smtpState ∨
    (sc.smtpState.HasStarted = false ∧ ∃ v c,
      (helloExecute sc s).1.smtpState = { sc.smtpState with Hello := v, ClientName := c }) := by
  unfold helloExecute
  cases hst : sc.smtpState.HasStarted with
  | true => left; simp [hst, Send_smtpState]
  | false =>
    rcases hsp : splitN2 (trimSpace s) with _ | ⟨v, rest⟩
    · left; simp [hst, hsp, Send_smtpState]
    · rcases rest with _ | ⟨c, tail⟩
      · left; simp [hst, hsp, Send_smtpState]
      · right; exact ⟨rfl, v, c, by simp [hst, hsp, Send_smtpState]⟩

theorem mailExecute_shape (sc : SMTPConnection) (line : String) :
    (mailExecute sc line).1.smtpState = sc.smtpState ∨
    (sc.smtpState.HasStarted = true ∧ ∃ a,
      (mailExecute sc line).1.smtpState = { sc.smtpState with ReturnTo := a }) := by
  unfold mailExecute
  cases hst : sc.smtpState.HasStarted with
  | false => left; simp [hst, Send_smtpState]
  | true =>
    rcases hm : mailCommandPattern line with _ | a
    · left; simp [hst, hm, Send_smtpState]
    · right; exact ⟨rfl, a, by simp [hst, hm, Send_smtpState]⟩

theorem recipientExecute_shape (sc : SMTPConnection) (line : String) :
    (recipientExecute sc line).1.smtpState = sc.smtpState ∨
    (sc.smtpState.HasStarted = true ∧ ∃ a,
      (recipientExecute sc line).1.smtpState =
        { sc.smtpState with Recipients := sc.smtpState.Recipients ++ [a] }) := by
  unfold recipientExecute
  cases hst : sc.smtpState.HasStarted with
  | false => left; simp [hst, Send_smtpState]
  | true =>
    rcases hm : recipientCommandPattern line with _ | a
    · left; simp [hst, hm, Send_smtpState]
    · right; exact ⟨rfl, a, by simp [hst, hm, Send_smtpState]⟩

theorem resetExecute_state (sc : SMTPConnection) (line : String) :
    (resetExecute sc line).1.smtpState = sc.smtpState.Reset := by
  unfold resetExecute
  rw [Send_smtpState]

theorem verifyExecute_state (sc : SMTPConnection) (line : String) :
    (verifyExecute sc line).1.smtpState = sc.smtpState := Send_smtpState ..

theorem noopExecute_state (sc : SMTPConnection) (line : String) :
    (noopExecute sc line).1.smtpState = sc.smtpState := Send_smtpState ..

theorem quitExecute_state (sc : SMTPConnection) (line : String) :
    (quitExecute sc line).1.smtpState = sc.smtpState := by
  unfold quitExecute SMTPConnection.Quit
  rcases h : sc.handler.Close with ⟨h1, ok⟩
  cases ok with
  | false => simp [h]
  | true => simp [h, Send_smtpState]

theorem dataExecute_shape (sc : SMTPConnection) (line : String) (input : List String) :
    (dataExecute sc line input).1.smtpState = sc.smtpState ∨
    (∃ hs ct, (dataExecute sc line input).1.smtpState =
      { sc.smtpState with Headers := hs, Content := ct }) := by
  unfold dataExecute
  rcases h : sc.Send ["250 OK"] with ⟨sc1, ok⟩
  have hst : sc1.smtpState = sc.smtpState := by
    have h2 := Send_smtpState sc ["250 OK"]
    rw [h] at h2
    exact h2
  cases ok with
  | false => left; simp [h, hst]
  | true =>
    rcases hr : readDotLines input with _ | ⟨ls, rest⟩
    · left; simp [h, hr, hst]
    · right
      exact ⟨(parseData ls).1, (parseData ls).2, by simp [h, hr, hst]⟩

theorem execCommand_hello_fst (sc : SMTPConnection) (line : String) (input : List String) :
    (execCommand .hello sc line input).1 = (helloExecute sc line).1 := by
  rcases h : helloExecute sc line with ⟨sc1, ok⟩
  simp [execCommand, h]

theorem execCommand_mail_fst (sc : SMTPConnection) (line : String) (input : List String) :
    (execCommand .mail sc line input).1 = (mailExecute sc line).1 := by
  rcases h : mailExecute sc line with ⟨sc1, ok⟩
  simp [execCommand, h]

theorem execCommand_rcpt_fst (sc : SMTPConnection) (line : String) (input : List String) :
    (execCommand .rcpt sc line input).1 = (recipientExecute sc line).1 := by
  rcases h : recipientExecute sc line with ⟨sc1, ok⟩
  simp [execCommand, h]

theorem execCommand_rset_fst (sc : SMTPConnection) (line : String) (input : List String) :
    (execCommand .rset sc line input).1 = (resetExecute sc line).1 := by
  rcases h : resetExecute sc line with ⟨sc1, ok⟩
  simp [execCommand, h]

theorem execCommand_vrfy_fst (sc : SMTPConnection) (line : String) (input : List String) :
    (execCommand .vrfy sc line input).1 = (verifyExecute sc line).1 := by
  rcases h : verifyExecute sc line with ⟨sc1, ok⟩
  simp [execCommand, h]

theorem execCommand_noop_fst (sc : SMTPConnection) (line : String) (input : List String) :
    (execCommand .noop sc line input).1 = (noopExecute sc line).1 := by
  rcases h : noopExecute sc line with ⟨sc1, ok⟩
  simp [execCommand, h]

theorem execCommand_quit_fst (sc : SMTPConnection) (line : String) (input : List String) :
    (execCommand .quit sc line input).1 = (quitExecute sc line).1 := by
  rcases h : quitExecute sc line with ⟨sc1, ok⟩
  simp [execCommand, h]

theorem execCommand_shape (v : Verb) (sc : SMTPConnection) (line : String)
    (input : List String) :
    (execCommand v sc line input).1.smtpState = sc.smtpState ∨
    (sc.smtpState.HasStarted = false ∧ ∃ hv c,
      (execCommand v sc line input).1.smtpState =
        { sc.smtpState with Hello := hv, ClientName := c }) ∨
    (sc.smtpState.HasStarted = true ∧ ∃ a,
      (execCommand v sc line input).1.smtpState = { sc.smtpState with ReturnTo := a }) ∨
    (sc.smtpState.HasStarted = true ∧ ∃ a,
      (execCommand v sc line input).1.smtpState =
        { sc.smtpState with Recipients := sc.smtpState.Recipients ++ [a] }) ∨
    (execCommand v sc line input).1.smtpState = sc.smtpState.Reset ∨
    (∃ hs ct, (execCommand v sc line input).1.smtpState =
      { sc.smtpState with Headers := hs, Content := ct }) := by
  cases v with
  | hello =>
    rw [execCommand_hello_fst]
    rcases helloExecute_shape sc line with h1 | h2
    · exact Or.inl h1
    · exact Or.inr (Or.inl h2)
  | mail =>
    rw [execCommand_mail_fst]
    rcases mailExecute_shape sc line with h1 | h2
    · exact Or.inl h1
    · exact Or.inr (Or.inr (Or.inl h2))
  | rcpt =>
    rw [execCommand_rcpt_fst]
    rcases recipientExecute_shape sc line with h1 | h2
    · exact Or.inl h1
    · exact Or.inr (Or.inr (Or.inr (Or.inl h2)))
  | rset =>
    rw [execCommand_rset_fst]
    exact Or.inr (Or.inr (Or.inr (Or.inr (Or.inl (resetExecute_state sc line)))))
  | vrfy =>
    rw [execCommand_vrfy_fst]
    exact Or.inl (verifyExecute_state sc line)
  | noop =>
    rw [execCommand_noop_fst]
    exact Or.inl (noopExecute_state sc line)
  | quit =>
    rw [execCommand_quit_fst]
    exact Or.inl (quitExecute_state sc line)
  | data =>
    rcases dataExecute_shape sc line input with h1 | h2
    · exact Or.inl h1
    · exact Or.inr (Or.inr (Or.inr (Or.inr (Or.inr h2))))

/-- Reduced form of `loopBody`: the empty-token branch is dead because
`splitN2` never returns an empty list. -/
theorem loopBody_eq (sc : SMTPConnection) (line : String) (input : List String) :
    loopBody sc line input =
      match smtpCommandMap ((splitN2 (trimSpace line)).headD "") with
      | some v => execCommand v sc line input
      | none =>
        match sc.Send ["550 Command not recognized"] with
        | (scB, ok) => (scB, input, ok) := by
  have h : ¬((splitN2 (trimSpace line)).length = 0) := by
    simpa [List.length_eq_zero] using splitN2_ne_nil (trimSpace line)
  simp only [loopBody]
  rw [if_neg h]

theorem loopBody_state_shape (sc : SMTPConnection) (line : String) (input : List String) :
    (loopBody sc line input).1.smtpState = sc.smtpState ∨
    (sc.smtpState.HasStarted = false ∧ ∃ hv c,
      (loopBody sc line input).1.smtpState =
        { sc.smtpState with Hello := hv, ClientName := c }) ∨
    (sc.smtpState.HasStarted = true ∧ ∃ a,
      (loopBody sc line input).1.smtpState = { sc.smtpState with ReturnTo := a }) ∨
    (sc.smtpState.HasStarted = true ∧ ∃ a,
      (loopBody sc line input).1.smtpState =
        { sc.smtpState with Recipients := sc.smtpState.Recipients ++ [a] }) ∨
    (loopBody sc line input).1.smtpState = sc.smtpState.Reset ∨
    (∃ hs ct, (loopBody sc line input).1.smtpState =
      { sc.smtpState with Headers := hs, Content := ct }) := by
  rw [loopBody_eq]
  rcases hm : smtpCommandMap ((splitN2 (trimSpace line)).headD "") with _ | v
  · rcases hs : sc.Send ["550 Command not recognized"] with ⟨scB, ok⟩
    have hB := Send_smtpState sc ["550 Command not recognized"]
    rw [hs] at hB
    left
    simpa using hB
  · exact execCommand_shape v sc line input

/-! ### The reachable-state envelope invariant -/

theorem reachable_envelope (st : SMTPState) (h : ReachableState st) :
    st.Hello = "" → st.ReturnTo = "" ∧ st.Recipients = [] := by
  induction h with
  | init => intro _; exact ⟨rfl, rfl⟩
  | step sc line input _ ih =>
    rcases loopBody_state_shape sc line input with
      h1 | ⟨hs, hv, c, h2⟩ | ⟨hs, a, h3⟩ | ⟨hs, a, h4⟩ | h5 | ⟨hd, ct, h6⟩
    · rw [h1]; exact ih
    · intro _
      have he : sc.smtpState.Hello = "" := (hasStarted_false_iff _).mp hs
      have := ih he
      rw [h2]
      exact this
    · intro hcon
      rw [h3] at hcon
      simp only at hcon
      rw [(hasStarted_false_iff sc.smtpState).mpr hcon] at hs
      cases hs
    · intro hcon
      rw [h4] at hcon
      simp only at hcon
      rw [(hasStarted_false_iff sc.smtpState).mpr hcon] at hs
      cases hs
    · rw [h5]; intro _; exact ⟨rfl, rfl⟩
    · intro hcon
      rw [h6] at hcon ⊢
      simp only at hcon ⊢
      exact ih hcon

/-! ### Characterizing the DATA header/body split -/

theorem join_nil : String.join ([] : List String) = "" := rfl

theorem join_cons (x : String) (l : List String) :
    String.join (x :: l) = x ++ String.join l := by
  apply String.ext
  simp [String.join_eq]

theorem dataBodySplit_body (xs : List String) (hs : List String) (ct : String) :
    dataBodySplit xs hs ct true = (hs, ct ++ String.join (xs.map (fun x => x ++ crlf))) := by
  induction xs generalizing ct with
  | nil => simp [dataBodySplit, join_nil, String.append_empty]
  | cons x xs ih =>
    simp only [dataBodySplit, Bool.not_true, Bool.false_and, Bool.false_eq_true,
      if_false, if_true]
    rw [ih]
    simp [join_cons, String.append_assoc]

theorem dataBodySplit_header (xs : List String) (hs : List String) (ct : String) :
    dataBodySplit xs hs ct false =
      (hs ++ xs.takeWhile (fun x => !(trimSpace x == "")),
       ct ++ String.join (((xs.dropWhile (fun x => !(trimSpace x == ""))).drop 1).map
         (fun x => x ++ crlf))) := by
  induction xs generalizing hs with
  | nil => simp [dataBodySplit, join_nil, String.append_empty]
  | cons x xs ih =>
    cases hb : (trimSpace x == "") with
    | true =>
      simp only [dataBodySplit, Bool.not_false, Bool.true_and, hb, if_true]
      rw [dataBodySplit_body]
      simp [hb]
    | false =>
      simp only [dataBodySplit, Bool.not_false, Bool.true_and, hb, Bool.false_eq_true,
        if_false]
      rw [ih (hs ++ [x])]
      simp [hb]

/-- Claim C4: the DATA header/body split stores header-mode lines verbatim,
discards the first whitespace-blank line, and stores every later line with
the terminator appended; on the example block it produces exactly the
expected headers and body. -/
theorem data_header_body_split :
    (∀ lines : List String,
      parseData lines =
        (lines.takeWhile (fun x => !(trimSpace x == "")),
         String.join (((lines.dropWhile (fun x => !(trimSpace x == ""))).drop 1).map
           (fun x => x ++ crlf)))) ∧
    parseData ["Subject: hi", "", "line1", "", "line2"] =
      (["Subject: hi"], "line1\r\n\r\nline2\r\n") := by
  constructor
  · intro lines
    unfold parseData
    rw [dataBodySplit_header]
    simp
  · decide

/-- Claim C10: a successful DATA command replaces `Headers` and `Content`
wholesale with the parse of the just-read dot-terminated block, whatever
the prior state held. -/
theorem data_replaces_headers_content (sc : SMTPConnection)
    (input lines rest : List String)
    (hc : sc.handler.conn.closed = false)
    (hr : readDotLines input = some (lines, rest)) :
    (dataExecute sc "DATA" input).1.smtpState =
      { sc.smtpState with Headers := (parseData lines).1,
                          Content := (parseData lines).2 } ∧
    (dataExecute sc "DATA" input).2.2 = true := by
  unfold dataExecute
  rw [Send_open sc ["250 OK"] hc]
  simp [hr]

theorem data_replaces_headers_content_witness :
    (dataExecute (SMTPConnection.mk Handler.init SMTPState.init) "DATA"
        ["Subject: hi", "", "b", "."]).1.smtpState =
      { SMTPState.init with
          Headers := (parseData ["Subject: hi", "", "b"]).1,
          Content := (parseData ["Subject: hi", "", "b"]).2 } ∧
    (dataExecute (SMTPConnection.mk Handler.init SMTPState.init) "DATA"
        ["Subject: hi", "", "b", "."]).2.2 = true :=
  data_replaces_headers_content (SMTPConnection.mk Handler.init SMTPState.init)
    ["Subject: hi", "", "b", "."] ["Subject: hi", "", "b"] [] rfl (by decide)

/-- Claim C6: RSET clears the envelope fields while preserving the
greeting identity, a second RSET is a no-op, and the RSET handler applies
exactly this reset to the session state. -/
theorem rset_frame_and_idempotent :
    (∀ st : SMTPState,
      st.Reset.Hello = st.Hello ∧ st.Reset.ServerName = st.ServerName ∧
      st.Reset.ClientName = st.ClientName ∧ st.Reset.ReturnTo = "" ∧
      st.Reset.Recipients = [] ∧ st.Reset.Headers = [] ∧ st.Reset.Content = "" ∧
      st.Reset.Reset = st.Reset) ∧
    (∀ (sc : SMTPConnection) (line : String),
      (resetExecute sc line).1.smtpState = sc.smtpState.Reset) :=
  ⟨fun _ => ⟨rfl, rfl, rfl, rfl, rfl, rfl, rfl, rfl⟩,
   fun sc line => resetExecute_state sc line⟩

/-! ### Characterizing the session rendering -/

theorem foldl_rcpt (l : List String) (a : String) :
    l.foldl (fun acc x => acc ++ "RCPT TO: <" ++ x ++ ">" ++ crlf) a =
      a ++ String.join (l.map (fun x => "RCPT TO: <" ++ x ++ ">" ++ crlf)) := by
  induction l generalizing a with
  | nil => simp [join_nil, String.append_empty]
  | cons x xs ih =>
    rw [List.foldl_cons, ih]
    simp [join_cons, String.append_assoc]

theorem foldl_hdr (l : List String) (a : String) :
    l.foldl (fun acc x => acc ++ x ++ crlf) a =
      a ++ String.join (l.map (fun x => x ++ crlf)) := by
  induction l generalizing a with
  | nil => simp [join_nil, String.append_empty]
  | cons x xs ih =>
    rw [List.foldl_cons, ih]
    simp [join_cons, String.append_assoc]

/-- Claim C9: the rendering is the deterministic concatenation of one MAIL
FROM line, one RCPT TO line per recipient in order, a DATA marker, the
header lines verbatim, one blank line, then the raw body; on the example
state it equals exactly the expected string. -/
theorem render_canonical :
    (∀ st : SMTPState,
      st.render = "MAIL FROM: <" ++ st.ReturnTo ++ ">" ++ crlf
        ++ String.join (st.Recipients.map (fun x => "RCPT TO: <" ++ x ++ ">" ++ crlf))
        ++ "DATA" ++ crlf
        ++ String.join (st.Headers.map (fun x => x ++ crlf))
        ++ crlf ++ st.Content) ∧
    SMTPState.render
      { Hello := "EHLO", ServerName := "", ClientName := "",
        ReturnTo := "foo@example.net",
        Recipients := ["u1@example.net", "u2@example.net"],
        Headers := ["Subject: x"], Content := "hello\r\n" } =
      "MAIL FROM: <foo@example.net>\r\nRCPT TO: <u1@example.net>\r\nRCPT TO: <u2@example.net>\r\nDATA\r\nSubject: x\r\n\r\nhello\r\n" := by
  constructor
  · intro st
    simp only [SMTPState.render]
    rw [foldl_rcpt]
    rw [foldl_hdr]
  · decide

/-! ### The shape of lines accepted by the MAIL/RCPT patterns -/

theorem data_asString (s : String) : s.data.asString = s := rfl

theorem asString_data (l : List Char) : (l.asString).data = l := rfl

theorem dropPfx_append (p rest : List Char) : dropPfx p (p ++ rest) = some rest := by
  induction p with
  | nil => rfl
  | cons c cs ih => simp [dropPfx, ih]

theorem dropWhile_replicate_space (n : Nat) (l : List Char) :
    (List.replicate n ' ' ++ l).dropWhile (fun c => c == ' ') =
      l.dropWhile (fun c => c == ' ') := by
  induction n with
  | zero => simp
  | succ k ih => simp [List.replicate_succ, List.dropWhile_cons, ih]

theorem takeWhile_append_all (p : Char → Bool) (l m : List Char)
    (h : ∀ c ∈ l, p c = true) :
    (l ++ m).takeWhile p = l ++ m.takeWhile p := by
  induction l with
  | nil => simp
  | cons c cs ih =>
    have hc := h c (by simp)
    simp [List.takeWhile_cons, hc, ih (fun d hd => h d (by simp [hd]))]

theorem dropWhile_append_all (p : Char → Bool) (l m : List Char)
    (h : ∀ c ∈ l, p c = true) :
    (l ++ m).dropWhile p = m.dropWhile p := by
  induction l with
  | nil => simp
  | cons c cs ih =>
    have hc := h c (by simp)
    simp [List.dropWhile_cons, hc, ih (fun d hd => h d (by simp [hd]))]

theorem all_replicate_space (m : Nat) :
    (List.replicate m ' ').all (fun c => c == ' ') = true := by
  simp [List.all_eq_true]

/-- A run of spaces, for describing the tolerated spacing in the command
patterns. -/
def spaces (n : Nat) : String := (List.replicate n ' ').asString

theorem matchAngle_form (n m : Nat) (addr : String)
    (h1 : addr.data ≠ []) (h2 : ∀ c ∈ addr.data, c ≠ '>') :
    matchAngle (List.replicate n ' ' ++ '<' :: (addr.data ++ '>' :: List.replicate m ' '))
      = some addr := by
  have hall : ∀ c ∈ addr.data, (fun c => c != '>') c = true := by
    intro c hc
    simpa using h2 c hc
  have hscrut : (List.replicate n ' ' ++
        '<' :: (addr.data ++ '>' :: List.replicate m ' ')).dropWhile (fun c => c == ' ')
      = '<' :: (addr.data ++ '>' :: List.replicate m ' ') := by
    rw [show ('<' :: (addr.data ++ '>' :: List.replicate m ' ')) =
          ['<'] ++ (addr.data ++ '>' :: List.replicate m ' ') from rfl,
        dropWhile_replicate_space]
    simp
  have htw : (addr.data ++ '>' :: List.replicate m ' ').takeWhile (fun c => c != '>')
      = addr.data := by
    rw [takeWhile_append_all _ _ _ hall]
    simp
  have hdw : (addr.data ++ '>' :: List.replicate m ' ').dropWhile (fun c => c != '>')
      = '>' :: List.replicate m ' ' := by
    rw [dropWhile_append_all _ _ _ hall]
    simp
  have hne : addr.data.isEmpty = false := by
    simpa [List.isEmpty_iff] using h1
  unfold matchAngle
  rw [hscrut]
  simp only [hdw, htw]
  simp [hne, all_replicate_space, data_asString]

theorem mailCommandPattern_form (n m : Nat) (addr : String)
    (h1 : addr.data ≠ []) (h2 : ∀ c ∈ addr.data, c ≠ '>') :
    mailCommandPattern ("MAIL FROM:" ++ spaces n ++ "<" ++ addr ++ ">" ++ spaces m)
      = some addr := by
  unfold mailCommandPattern
  have hd : ("MAIL FROM:" ++ spaces n ++ "<" ++ addr ++ ">" ++ spaces m).data
      = "MAIL FROM:".data ++
        (List.replicate n ' ' ++ '<' :: (addr.data ++ '>' :: List.replicate m ' ')) := by
    simp [String.data_append, spaces, asString_data]
  rw [hd, dropPfx_append]
  exact matchAngle_form n m addr h1 h2

theorem recipientCommandPattern_form (n m : Nat) (addr : String)
    (h1 : addr.data ≠ []) (h2 : ∀ c ∈ addr.data, c ≠ '>') :
    recipientCommandPattern ("RCPT TO:" ++ spaces n ++ "<" ++ addr ++ ">" ++ spaces m)
      = some addr := by
  unfold recipientCommandPattern
  have hd : ("RCPT TO:" ++ spaces n ++ "<" ++ addr ++ ">" ++ spaces m).data
      = "RCPT TO:".data ++
        (List.replicate n ' ' ++ '<' :: (addr.data ++ '>' :: List.replicate m ' ')) := by
    simp [String.data_append, spaces, asString_data]
  rw [hd, dropPfx_append]
  exact matchAngle_form n m addr h1 h2

/-- Claim C5: on a started session a line matching the MAIL pattern sets
`ReturnTo` to the text strictly between the angle brackets and answers
250 OK; a non-matching line answers the syntax error and leaves `ReturnTo`
(indeed the whole state) unchanged; and every line of the form
`MAIL FROM:` + spaces + `<addr>` + spaces matches with capture `addr`. -/
theorem mail_command_extraction (sc : SMTPConnection) (line : String)
    (hs : sc.smtpState.HasStarted = true) (hc : sc.handler.conn.closed = false) :
    (∀ a, mailCommandPattern line = some a →
      (mailExecute sc line).1.smtpState = { sc.smtpState with ReturnTo := a } ∧
      (mailExecute sc line).1.handler.conn.output =
        sc.handler.conn.output ++ ["250 OK"]) ∧
    (mailCommandPattern line = none →
      (mailExecute sc line).1.smtpState = sc.smtpState ∧
      (mailExecute sc line).1.handler.conn.output =
        sc.handler.conn.output ++ ["550 Invalid syntax MAIL FROM: <foo@example.net>"]) ∧
    (∀ (n m : Nat) (addr : String), addr.data ≠ [] → (∀ c ∈ addr.data, c ≠ '>') →
      mailCommandPattern ("MAIL FROM:" ++ spaces n ++ "<" ++ addr ++ ">" ++ spaces m)
        = some addr) := by
  refine ⟨?_, ?_, fun n m addr h1 h2 => mailCommandPattern_form n m addr h1 h2⟩
  · intro a hm
    unfold mailExecute
    rw [hs]
    simp only [Bool.not_true, Bool.false_eq_true, if_false, hm]
    rw [Send_open { sc with smtpState := { sc.smtpState with ReturnTo := a } }
      ["250 OK"] hc]
    exact ⟨rfl, rfl⟩
  · intro hm
    unfold mailExecute
    rw [hs]
    simp only [Bool.not_true, Bool.false_eq_true, if_false, hm]
    rw [Send_open sc ["550 Invalid syntax MAIL FROM: <foo@example.net>"] hc]
    exact ⟨rfl, rfl⟩

/-- A started session over an open connection, used to instantiate the
claims that require a session past the greeting. -/
def startedSC : SMTPConnection :=
  SMTPConnection.mk Handler.init { SMTPState.init with Hello := "EHLO" }

theorem mail_command_extraction_witness :
    startedSC.smtpState.HasStarted = true ∧
    mailCommandPattern "MAIL FROM: <a@b.c>" = some "a@b.c" ∧
    (mailExecute startedSC "MAIL FROM: <a@b.c>").1.smtpState =
      { startedSC.smtpState with ReturnTo := "a@b.c" } ∧
    (mailExecute startedSC "MAIL FROM: <a@b.c>").1.handler.conn.output = ["250 OK"] :=
  ⟨by decide, by decide,
   ((mail_command_extraction startedSC "MAIL FROM: <a@b.c>" (by decide) rfl).1
      "a@b.c" (by decide)).1,
   ((mail_command_extraction startedSC "MAIL FROM: <a@b.c>" (by decide) rfl).1
      "a@b.c" (by decide)).2⟩

/-! ### RCPT ordering and sequencing -/

/-- Claim C7: a successful RCPT appends exactly its captured address at the
end of `Recipients`; across every loop iteration `Recipients` can only stay
unchanged, gain one appended element, or be fully cleared; and the two
example RCPT commands accumulate in command order. -/
theorem rcpt_appends_in_order (sc : SMTPConnection) (line addr : String)
    (hs : sc.smtpState.HasStarted = true)
    (hm : recipientCommandPattern line = some addr) :
    (recipientExecute sc line).1.smtpState.Recipients =
      sc.smtpState.Recipients ++ [addr] ∧
    (∀ (sc2 : SMTPConnection) (l : String) (inp : List String),
      (loopBody sc2 l inp).1.smtpState.Recipients = sc2.smtpState.Recipients ∨
      (∃ a, (loopBody sc2 l inp).1.smtpState.Recipients =
        sc2.smtpState.Recipients ++ [a]) ∨
      (loopBody sc2 l inp).1.smtpState.Recipients = []) ∧
    (loopBody (loopBody startedSC "RCPT TO:<u1@x>" []).1 "RCPT TO:<u2@x>"
        []).1.smtpState.Recipients = ["u1@x", "u2@x"] := by
  refine ⟨?_, ?_, by decide⟩
  · unfold recipientExecute
    rw [hs]
    simp only [Bool.not_true, Bool.false_eq_true, if_false, hm]
    rw [Send_smtpState]
  · intro sc2 l inp
    rcases loopBody_state_shape sc2 l inp with
      h1 | ⟨_, hv, c, h2⟩ | ⟨_, a, h3⟩ | ⟨_, a, h4⟩ | h5 | ⟨hd, ct, h6⟩
    · left; rw [h1]
    · left; rw [h2]
    · left; rw [h3]
    · right; left; exact ⟨a, by rw [h4]⟩
    · right; right; rw [h5]; rfl
    · left; rw [h6]

theorem rcpt_appends_in_order_witness :
    startedSC.smtpState.HasStarted = true ∧
    recipientCommandPattern "RCPT TO: <u1@x>" = some "u1@x" ∧
    (recipientExecute startedSC "RCPT TO: <u1@x>").1.smtpState.Recipients = ["u1@x"] :=
  ⟨by decide, by decide,
   (rcpt_appends_in_order startedSC "RCPT TO: <u1@x>" "u1@x" (by decide) (by decide)).1⟩

/-- Claim C8: on a session that has not started (empty greeting verb),
RCPT answers the sequence error and `Recipients` stays empty — the state
is reachable, so the envelope invariant forces it to be empty before, and
the handler leaves the state untouched. -/
theorem rcpt_before_greeting (sc : SMTPConnection) (line : String)
    (hr : ReachableState sc.smtpState) (he : sc.smtpState.Hello = "")
    (hc : sc.handler.conn.closed = false) :
    (recipientExecute sc line).1.smtpState.Recipients = [] ∧
    (recipientExecute sc line).1.handler.conn.output =
      sc.handler.conn.output ++ ["550 Session has not started yet."] := by
  have hst : sc.smtpState.HasStarted = false := (hasStarted_false_iff _).mpr he
  have hrec : sc.smtpState.Recipients = [] := (reachable_envelope _ hr he).2
  unfold recipientExecute
  rw [hst]
  simp only [Bool.not_false, if_true]
  rw [Send_open sc ["550 Session has not started yet."] hc]
  exact ⟨hrec, rfl⟩

theorem rcpt_before_greeting_witness :
    ReachableState SMTPState.init ∧
    (recipientExecute (SMTPConnection.mk Handler.init SMTPState.init)
        "RCPT TO: <u@x>").1.smtpState.Recipients = [] ∧
    (recipientExecute (SMTPConnection.mk Handler.init SMTPState.init)
        "RCPT TO: <u@x>").1.handler.conn.output =
      ["550 Session has not started yet."] :=
  ⟨ReachableState.init,
   (rcpt_before_greeting (SMTPConnection.mk Handler.init SMTPState.init)
      "RCPT TO: <u@x>" ReachableState.init rfl rfl).1,
   (rcpt_before_greeting (SMTPConnection.mk Handler.init SMTPState.init)
      "RCPT TO: <u@x>" ReachableState.init rfl rfl).2⟩

/-! ### The pre-greeting invariant (Claim C1) -/

/-- The session state produced by issuing DATA as the very first command
of a fresh session. -/
def preGreetingDataState : SMTPState :=
  (loopBody (SMTPConnection.mk Handler.init SMTPState.init) "DATA"
    ["Subject: hi", "."]).1.smtpState

/-- Counterexample to Claim C1 as stated: a DATA command issued before any
greeting reaches a reachable state whose greeting verb is still empty but
whose `Headers` is non-empty — DATA has no session-started check. -/
theorem pre_greeting_headers_counterexample :
    ReachableState preGreetingDataState ∧
    preGreetingDataState.Hello = "" ∧
    preGreetingDataState.Headers = ["Subject: hi"] :=
  ⟨ReachableState.step (SMTPConnection.mk Handler.init SMTPState.init) "DATA"
      ["Subject: hi", "."] ReachableState.init,
   by decide, by decide⟩

/-- Claim C1 (amended): in every reachable session state with an empty
greeting verb, `ReturnTo` and `Recipients` are still empty (MAIL and RCPT
check the greeting; DATA does not, so `Headers`/`Content` are excluded). -/
theorem pre_greeting_envelope (st : SMTPState) (hr : ReachableState st)
    (he : st.Hello = "") : st.ReturnTo = "" ∧ st.Recipients = [] :=
  reachable_envelope st hr he

theorem pre_greeting_envelope_witness :
    ReachableState SMTPState.init ∧ SMTPState.init.Hello = "" ∧
    (SMTPState.init.ReturnTo = "" ∧ SMTPState.init.Recipients = []) :=
  ⟨ReachableState.init, rfl, pre_greeting_envelope SMTPState.init ReachableState.init rfl⟩

/-! ### Empty-line handling (Claim C3) -/

/-- Counterexample to Claim C3 as stated: Go `strings.SplitN` never
returns an empty slice, so the dedicated empty-command branch of the loop
is dead code; an empty input line is answered with the generic
unrecognized-command response, not the empty-command message. -/
theorem empty_line_response_counterexample :
    (loopBody (SMTPConnection.mk Handler.init SMTPState.init) ""
        []).1.handler.conn.output = ["550 Command not recognized"] ∧
    (loopBody (SMTPConnection.mk Handler.init SMTPState.init) ""
        []).1.handler.conn.output ≠ ["550 Command must not be empty"] :=
  ⟨by decide, by decide⟩

/-- Claim C3 (amended): a line that is empty after trimming yields exactly
the "550 Command not recognized" response and leaves the session state and
the remaining input unchanged. -/
theorem empty_line_unrecognized (sc : SMTPConnection) (line : String)
    (inp : List String) (he : trimSpace line = "")
    (hc : sc.handler.conn.closed = false) :
    (loopBody sc line inp).1.smtpState = sc.smtpState ∧
    (loopBody sc line inp).1.handler.conn.output =
      sc.handler.conn.output ++ ["550 Command not recognized"] ∧
    (loopBody sc line inp).2.1 = inp := by
  rw [loopBody_eq, he]
  have hm : smtpCommandMap ((splitN2 "").headD "") = none := rfl
  rw [hm]
  rw [Send_open sc ["550 Command not recognized"] hc]
  exact ⟨rfl, rfl, rfl⟩

theorem empty_line_unrecognized_witness :
    trimSpace "  " = "" ∧
    (loopBody (SMTPConnection.mk Handler.init SMTPState.init) "  "
        ["NOOP"]).1.smtpState = SMTPState.init ∧
    (loopBody (SMTPConnection.mk Handler.init SMTPState.init) "  "
        ["NOOP"]).1.handler.conn.output = ["550 Command not recognized"] ∧
    (loopBody (SMTPConnection.mk Handler.init SMTPState.init) "  "
        ["NOOP"]).2.1 = ["NOOP"] :=
  ⟨by decide,
   (empty_line_unrecognized (SMTPConnection.mk Handler.init SMTPState.init)
      "  " ["NOOP"] (by decide) rfl).1,
   (empty_line_unrecognized (SMTPConnection.mk Handler.init SMTPState.init)
      "  " ["NOOP"] (by decide) rfl).2.1,
   (empty_line_unrecognized (SMTPConnection.mk Handler.init SMTPState.init)
      "  " ["NOOP"] (by decide) rfl).2.2⟩

/-! ### QUIT and connection closing (Claim C2) -/

theorem quitExecute_open (sc : SMTPConnection) (line : String)
    (hc : sc.handler.conn.closed = false) :
    quitExecute sc line =
      ({ sc with handler := { conn := { sc.handler.conn with closed := true, closeCount := sc.handler.conn.closeCount + 1 }, closing := true } }, false) := by
  have hcl : sc.handler.Close =
      ({ conn := { sc.handler.conn with closed := true, closeCount := sc.handler.conn.closeCount + 1 }, closing := true }, true) := by
    unfold Handler.Close
    simp [Conn.close, hc]
  simp only [quitExecute, SMTPConnection.Quit, hcl]
  unfold SMTPConnection.Send
  rw [sendAll_closed "221 Bye" [] _ rfl]

/-- Counterexample to Claim C2 as stated: running a whole session on the
single command QUIT invokes Close on the connection twice — once inside
the QUIT handler and once more in the loop's deferred cleanup — not
exactly once. -/
theorem quit_double_close_counterexample :
    (Handler.init.Run ["QUIT"]).1.handler.conn.closeCount = 2 ∧
    (Handler.init.Run ["QUIT"]).1.handler.conn.closeCount ≠ 1 :=
  ⟨by decide, by decide⟩

/-- Claim C2 (amended): the QUIT handler closes the connection (one Close
call, observable in the close count) and only then attempts "221 Bye",
which fails on the now-closed connection, so the output is unchanged and
the handler returns the write error; any read or write on a closed
connection fails; and a full session run on QUIT ends with two Close
invocations because the loop's deferred cleanup closes again. -/
theorem quit_close_then_bye (sc : SMTPConnection) (line : String)
    (hc : sc.handler.conn.closed = false) :
    (quitExecute sc line).1.handler.conn.closed = true ∧
    (quitExecute sc line).1.handler.conn.closeCount =
      sc.handler.conn.closeCount + 1 ∧
    (quitExecute sc line).1.handler.conn.output = sc.handler.conn.output ∧
    (quitExecute sc line).2 = false ∧
    (∀ (c : Conn) (inp : List String) (s : String), c.closed = true →
      c.readLine inp = none ∧ (c.writeLine s).2 = false) ∧
    (Handler.init.Run ["QUIT"]).1.handler.conn.closeCount = 2 := by
  rw [quitExecute_open sc line hc]
  refine ⟨rfl, rfl, rfl, rfl, ?_, by decide⟩
  intro c inp s hcl
  exact ⟨by simp [Conn.readLine, hcl], by simp [Conn.writeLine, hcl]⟩

theorem quit_close_then_bye_witness :
    (quitExecute (SMTPConnection.mk Handler.init SMTPState.init)
        "QUIT").1.handler.conn.closed = true ∧
    (quitExecute (SMTPConnection.mk Handler.init SMTPState.init)
        "QUIT").1.handler.conn.closeCount = 1 ∧
    (quitExecute (SMTPConnection.mk Handler.init SMTPState.init)
        "QUIT").1.handler.conn.output = [] ∧
    (quitExecute (SMTPConnection.mk Handler.init SMTPState.init)
        "QUIT").2 = false :=
  ⟨(quit_close_then_bye (SMTPConnection.mk Handler.init SMTPState.init) "QUIT" rfl).1,
   (quit_close_then_bye (SMTPConnection.mk Handler.init SMTPState.init) "QUIT" rfl).2.1,
   (quit_close_then_bye (SMTPConnection.mk Handler.init SMTPState.init) "QUIT" rfl).2.2.1,
   (quit_close_then_bye (SMTPConnection.mk Handler.init SMTPState.init) "QUIT" rfl).2.2.2.1⟩

end MProxy
